import Mathlib

/-!
Verification development for `geometric/engine.py`: the `Engine` base class
(result cache keyed by an exact-content hash of the coordinates, synchronous
`calc`, Work-Queue `calc_wq` / `read_wq`), the `QCEngineAPI` engine, and the
`ConicalIntersection` composite engine.

The Python code is embedded shallowly:
* a geometry (`coords`, a 1-d numpy array) becomes a `List ℚ`; the cache key
  `hash(coords.tostring())` is an exact-content hash, so it is modelled by the
  coordinate list itself (exact-match keying, no tolerance);
* `self.stored_calcs` (an `OrderedDict` mapping the coordinate hash to
  `{'coords': .., 'result': ..}`) becomes an association list from coordinates
  to results, with `OrderedDict` assignment semantics (update in place, else
  append);
* the filesystem is modelled by the set of existing directories, enough for
  `os.path.exists` / `os.makedirs`;
* the adapter-specific pieces of a concrete engine subclass (`calc_new`,
  `read_result`, presence of `read_result`, presence of a `calc_wq_new`
  override) become fields of an `Adapter` record; Python exceptions become an
  explicit error type and `Except` results.
-/

/-- A geometry: 1-dimensional array of 3N atomic coordinates (Bohr).
The cache fingerprint `hash(coords.tostring())` is exact-content, so the
coordinate list itself serves as the fingerprint in the model. -/
abbrev Coords := List ℚ

/-- `result` dictionary returned by the engines: energy, gradient and the
optional `s2` auxiliary scalar (`result.get('s2', 0.0)` where consumed). -/
structure CalculationResult where
  energy : ℚ
  gradient : List ℚ
  s2 : Option ℚ
  deriving DecidableEq, Repr

/-- Exceptions raised by the engine layer.
`engineError` stands for the adapter-specific `EngineError` subclasses
(`Psi4EngineError`, `TeraChemEngineError`, ...); `ciError` is
`ConicalIntersectionEngineError`; `notImplementedError` is the
`NotImplementedError` raised by the base-class `calc_wq_new` (the capability
error for adapters without Work Queue support); `runtimeError` is a plain
`RuntimeError`. -/
inductive EngErr where
  | engineError
  | ciError
  | notImplementedError
  | runtimeError
  deriving DecidableEq, Repr

/-- Membership in the `EngineError` exception family: what an
`except EngineError:` clause catches. `ConicalIntersectionEngineError` is
itself an `EngineError` subclass; `NotImplementedError` and `RuntimeError`
are builtins outside the family. -/
def EngErr.isEngineError : EngErr → Bool
  | .engineError => true
  | .ciError => true
  | .notImplementedError => false
  | .runtimeError => false

/-- The filesystem, as the set of directories that exist. -/
structure FS where
  dirs : List String
  deriving DecidableEq, Repr

/-- `os.path.exists dirname`. -/
def FS.dirExists (fs : FS) (d : String) : Bool := fs.dirs.contains d

/-- `os.makedirs dirname`. -/
def FS.makedirs (fs : FS) (d : String) : FS := ⟨fs.dirs ++ [d]⟩

/-- `if not os.path.exists(dirname): os.makedirs(dirname)`. -/
def FS.ensureDir (fs : FS) (d : String) : FS :=
  if fs.dirExists d then fs else fs.makedirs d

/-- The adapter-specific behaviour of a concrete `Engine` subclass:
`calc_new` (write input, run the external program, parse the output),
`read_result` (parse an existing output in a directory) together with the
`hasattr(self, 'read_result')` flag, and whether the subclass overrides
`calc_wq_new` (Work Queue support). -/
structure Adapter where
  has_read_result : Bool
  read_result : String → Except EngErr CalculationResult
  calc_new : Coords → String → Except EngErr CalculationResult
  supports_wq : Bool

/-- The per-instance mutable state of an `Engine`: `self.stored_calcs`,
keyed by the coordinate fingerprint. -/
structure EngineState where
  stored_calcs : List (Coords × CalculationResult)
  deriving DecidableEq, Repr

/-- `coord_hash in self.stored_calcs` / `self.stored_calcs[coord_hash]['result']`. -/
def lookupCalc : List (Coords × CalculationResult) → Coords → Option CalculationResult
  | [], _ => none
  | (k, v) :: rest, c => if k = c then some v else lookupCalc rest c

/-- `self.stored_calcs[coord_hash] = {'coords': coords, 'result': result}`:
`OrderedDict` assignment (overwrite in place, else append). -/
def storeCalc : List (Coords × CalculationResult) → Coords → CalculationResult →
    List (Coords × CalculationResult)
  | [], c, r => [(c, r)]
  | (k, v) :: rest, c, r =>
      if k = c then (k, r) :: rest else (k, v) :: storeCalc rest c r

/-- Outcome of one `Engine.calc` call: the returned result (or the raised
exception), the engine state and filesystem afterwards, and the number of
times the adapter's `calc_new` was invoked during the call. -/
structure CalcOutcome where
  res : Except EngErr CalculationResult
  st : EngineState
  fs : FS
  ncalls : Nat
  deriving Repr

/-- `Engine.calc(self, coords, dirname, readfiles=False)`:
return the cached result if the fingerprint is present; else, if `readfiles`
and the directory exists and the subclass has `read_result`, try to read the
result from disk, swallowing any failure (bare `except`); on a miss create
the directory if absent and run `calc_new`; store the result under the
fingerprint before returning. -/
def engineCalc (ad : Adapter) (st : EngineState) (fs : FS) (coords : Coords)
    (dirname : String) (readfiles : Bool) : CalcOutcome :=
  match lookupCalc st.stored_calcs coords with
  | some result => { res := .ok result, st := st, fs := fs, ncalls := 0 }
  | none =>
    let readAttempt : Option CalculationResult :=
      if readfiles && fs.dirExists dirname && ad.has_read_result then
        match ad.read_result dirname with
        | .ok result => some result
        | .error _ => none
      else none
    match readAttempt with
    | some result =>
        { res := .ok result, st := ⟨storeCalc st.stored_calcs coords result⟩,
          fs := fs, ncalls := 0 }
    | none =>
        let fs1 := fs.ensureDir dirname
        match ad.calc_new coords dirname with
        | .error e => { res := .error e, st := st, fs := fs1, ncalls := 1 }
        | .ok result =>
            { res := .ok result, st := ⟨storeCalc st.stored_calcs coords result⟩,
              fs := fs1, ncalls := 1 }

/-- A Work Queue job, as queued by a `calc_wq_new` override
(`queue_up_src_dest(wq, command, in_files, out_files)`): identified here by
the geometry it computes and the directory its outputs materialize into. -/
structure Job where
  coords : Coords
  dirname : String
  deriving DecidableEq, Repr

/-- The external Work Queue: the list of enqueued jobs, in order. -/
structure WQ where
  jobs : List Job
  deriving DecidableEq, Repr

/-- Outcome of a `calc_wq` / `calc_wq_new` call: the raised exception if any
(these methods return no result), and the filesystem and queue afterwards. -/
structure WqOutcome where
  err : Option EngErr
  fs : FS
  wq : WQ
  deriving Repr

/-- `calc_wq_new(self, coords, dirname)`. The base class raises
`NotImplementedError("Work Queue is not implemented for this class")`.
A subclass override (e.g. `TeraChem.calc_wq_new`) creates the directory if
absent, writes the input files, and enqueues one job for this geometry via
`queue_up_src_dest`. -/
def calc_wq_new (ad : Adapter) (fs : FS) (wq : WQ) (coords : Coords)
    (dirname : String) : WqOutcome :=
  if ad.supports_wq then
    { err := none, fs := fs.ensureDir dirname,
      wq := ⟨wq.jobs ++ [⟨coords, dirname⟩]⟩ }
  else
    { err := some .notImplementedError, fs := fs, wq := wq }

/-- `Engine.calc_wq(self, coords, dirname, readfiles=False)`: return (no
state change) if the fingerprint is in `stored_calcs`; else, if `readfiles`
and the directory exists and the subclass has `read_result`, try the read
and, on success, skip the submission (the read result is discarded, not
stored); otherwise call `calc_wq_new`. -/
def calc_wq (ad : Adapter) (st : EngineState) (fs : FS) (wq : WQ)
    (coords : Coords) (dirname : String) (readfiles : Bool) : WqOutcome :=
  match lookupCalc st.stored_calcs coords with
  | some _ => { err := none, fs := fs, wq := wq }
  | none =>
    let read_success :=
      readfiles && fs.dirExists dirname && ad.has_read_result &&
        (match ad.read_result dirname with
         | .ok _ => true
         | .error _ => false)
    if read_success then { err := none, fs := fs, wq := wq }
    else calc_wq_new ad fs wq coords dirname

/-- Outcome of a `read_wq` call: the returned result or raised exception, and
the engine state afterwards (`read_wq` touches neither filesystem nor queue). -/
structure ReadOutcome where
  res : Except EngErr CalculationResult
  st : EngineState
  deriving Repr

/-- `Engine.read_wq(self, coords, dirname)`: return the cached result if the
fingerprint is present; else raise `RuntimeError("In read_wq, %s doesn't
exist")` when the directory is absent; else parse via `read_result`
(exceptions propagate), store under the fingerprint, and return. -/
def read_wq (ad : Adapter) (st : EngineState) (fs : FS) (coords : Coords)
    (dirname : String) : ReadOutcome :=
  match lookupCalc st.stored_calcs coords with
  | some result => { res := .ok result, st := st }
  | none =>
    if !(fs.dirExists dirname) then { res := .error .runtimeError, st := st }
    else
      match ad.read_result dirname with
      | .error e => { res := .error e, st := st }
      | .ok result => { res := .ok result, st := ⟨storeCalc st.stored_calcs coords result⟩ }

/-- `QCEngineAPI.calc(self, coords, dirname)`: the override of the base-class
`calc` that skips caching and folder creation — it is exactly one direct
invocation of `calc_new`, leaving `stored_calcs` and the filesystem alone. -/
def qceCalc (ad : Adapter) (st : EngineState) (fs : FS) (coords : Coords)
    (dirname : String) : CalcOutcome :=
  { res := ad.calc_new coords dirname, st := st, fs := fs, ncalls := 1 }

/-- `Penalty = EDif**2 / (EDif + self.alpha)` in
`ConicalIntersection.calc_new`, as a function of the energy gap. -/
def ciPenaltyOf (alpha EDif : ℚ) : ℚ := EDif ^ 2 / (EDif + alpha)

/-- The scalar `(EDif**2 + 2*self.alpha*EDif)/(EDif+self.alpha)**2`
multiplying `GDif` in the objective gradient. -/
def ciGradFactor (alpha EDif : ℚ) : ℚ :=
  (EDif ^ 2 + 2 * alpha * EDif) / (EDif + alpha) ^ 2

/-- The arithmetic core of `ConicalIntersection.calc_new` after the
higher-energy state `I` and lower state `J` have been selected:
`EAvg = 0.5*(E_I+E_J)`, `EDif = E_I-E_J`, `GAvg = 0.5*(G_I+G_J)`,
`GDif = G_I-G_J`, `Obj = EAvg + sigma*Penalty`,
`ObjGrad = GAvg + sigma*ciGradFactor*GDif`. (The cosine `GAng` between the
two gradients is computed only for the log line and is omitted here.) -/
def ciCore (sigma alpha EI EJ : ℚ) (GI GJ : List ℚ) : CalculationResult :=
  let EAvg := (1 / 2 : ℚ) * (EI + EJ)
  let EDif := EI - EJ
  let GAvg := List.zipWith (fun a b => (1 / 2 : ℚ) * (a + b)) GI GJ
  let GDif := List.zipWith (fun a b => a - b) GI GJ
  let Obj := EAvg + sigma * ciPenaltyOf alpha EDif
  let ObjGrad := List.zipWith (fun a d => a + sigma * ciGradFactor alpha EDif * d) GAvg GDif
  { energy := Obj, gradient := ObjGrad, s2 := none }

/-- State selection plus arithmetic of `ConicalIntersection.calc_new`, given
the two sub-engine results: `if EDict[2] > EDict[1]: I, J = 2, 1 else
I, J = 1, 2`, then `ciCore` on `(E_I, E_J, G_I, G_J)`. -/
def ciObjective (sigma alpha E1 E2 : ℚ) (G1 G2 : List ℚ) : CalculationResult :=
  if E1 < E2 then ciCore sigma alpha E2 E1 G2 G1 else ciCore sigma alpha E1 E2 G1 G2

/-- The energy gap `EDif = E_I - E_J` as selected by `calc_new`
(the higher-energy state minus the lower). -/
def ciEDif (E1 E2 : ℚ) : ℚ := if E1 < E2 then E2 - E1 else E1 - E2

/-- The penalty as a function of the two sub-engine energies. -/
def ciPenalty (alpha E1 E2 : ℚ) : ℚ := ciPenaltyOf alpha (ciEDif E1 E2)

/-- Outcome of one `ConicalIntersection.calc_new` call: the returned result
or raised exception, both sub-engine states, the filesystem, and how many
times each sub-engine's adapter `calc_new` ran. -/
structure CIOutcome where
  res : Except EngErr CalculationResult
  st1 : EngineState
  st2 : EngineState
  fs : FS
  n1 : Nat
  n2 : Nat
  deriving Repr

/-- `ConicalIntersection.calc_new(self, coords, dirname)`: for each state in
[1, 2], create `dirname/state_i` if absent and run that sub-engine's full
`calc` there (`readfiles` defaulting to False); an `EngineError` from a
sub-engine is re-raised as `ConicalIntersectionEngineError` (ending the
loop, so a state-1 failure never reaches state 2); with both results in
hand, combine them via `ciObjective`. -/
def ciCalcNew (sigma alpha : ℚ) (ad1 ad2 : Adapter) (st1 st2 : EngineState)
    (fs : FS) (coords : Coords) (dirname : String) : CIOutcome :=
  let dnm1 := dirname ++ "/state_1"
  let fsA := fs.ensureDir dnm1
  let o1 := engineCalc ad1 st1 fsA coords dnm1 false
  match o1.res with
  | .error e =>
      { res := .error (if e.isEngineError then .ciError else e),
        st1 := o1.st, st2 := st2, fs := o1.fs, n1 := o1.ncalls, n2 := 0 }
  | .ok spcalc1 =>
    let dnm2 := dirname ++ "/state_2"
    let fsB := o1.fs.ensureDir dnm2
    let o2 := engineCalc ad2 st2 fsB coords dnm2 false
    match o2.res with
    | .error e =>
        { res := .error (if e.isEngineError then .ciError else e),
          st1 := o1.st, st2 := o2.st, fs := o2.fs, n1 := o1.ncalls, n2 := o2.ncalls }
    | .ok spcalc2 =>
        { res := .ok (ciObjective sigma alpha spcalc1.energy spcalc2.energy
                      spcalc1.gradient spcalc2.gradient),
          st1 := o1.st, st2 := o2.st, fs := o2.fs, n1 := o1.ncalls, n2 := o2.ncalls }

/-- Outcome of one `calc` call on a `ConicalIntersection` instance: the
result or exception, the composite's own `stored_calcs`, both sub-engine
states, and the filesystem. -/
structure CICalcOutcome where
  res : Except EngErr CalculationResult
  cst : EngineState
  st1 : EngineState
  st2 : EngineState
  fs : FS
  deriving Repr

/-- `calc` on a `ConicalIntersection` instance: the inherited `Engine.calc`
(the class overrides neither `calc` nor `read_result`, so
`hasattr(self, 'read_result')` is False and the `readfiles` branch can never
succeed) with `calc_new` dispatching to `ConicalIntersection.calc_new`.
On a cache miss it creates `dirname` if absent, runs `ciCalcNew`, and stores
a fingerprint-to-result entry in the composite's own `stored_calcs`. -/
def ciCalc (sigma alpha : ℚ) (ad1 ad2 : Adapter) (cst st1 st2 : EngineState)
    (fs : FS) (coords : Coords) (dirname : String) : CICalcOutcome :=
  match lookupCalc cst.stored_calcs coords with
  | some result =>
      { res := .ok result, cst := cst, st1 := st1, st2 := st2, fs := fs }
  | none =>
    let fs1 := fs.ensureDir dirname
    let o := ciCalcNew sigma alpha ad1 ad2 st1 st2 fs1 coords dirname
    match o.res with
    | .error e =>
        { res := .error e, cst := cst, st1 := o.st1, st2 := o.st2, fs := o.fs }
    | .ok result =>
        { res := .ok result, cst := ⟨storeCalc cst.stored_calcs coords result⟩,
          st1 := o.st1, st2 := o.st2, fs := o.fs }

/-- Stub adapter for concrete instantiations: no restart-read capability, no
Work Queue support, `calc_new` always succeeding with the given result. -/
def stubOk (r : CalculationResult) : Adapter :=
  { has_read_result := false, read_result := fun _ => .error .runtimeError,
    calc_new := fun _ _ => .ok r, supports_wq := false }

/-- Stub adapter with `read_result` present but always failing, and
`calc_new` always succeeding with the given result. -/
def stubReadFail (r : CalculationResult) : Adapter :=
  { stubOk r with has_read_result := true }

/-- Stub adapter with a `calc_wq_new` override (Work Queue support). -/
def stubWq (r : CalculationResult) : Adapter :=
  { stubOk r with supports_wq := true }

/-- Stub adapter whose `calc_new` always raises the given exception. -/
def stubErr (e : EngErr) : Adapter :=
  { has_read_result := false, read_result := fun _ => .error .runtimeError,
    calc_new := fun _ _ => .error e, supports_wq := false }

theorem lookup_storeCalc_self (l : List (Coords × CalculationResult))
    (c : Coords) (r : CalculationResult) :
    lookupCalc (storeCalc l c r) c = some r := by
  induction l with
  | nil => simp [storeCalc, lookupCalc]
  | cons p rest ih =>
      obtain ⟨k, v⟩ := p
      by_cases hk : k = c
      · simp [storeCalc, lookupCalc, hk]
      · simp [storeCalc, lookupCalc, hk, ih]

/-- C1: for every geometry and directory, `calc` called twice on the same
Engine instance returns the identical result both times, the adapter's
`calc_new` runs exactly once (on the first call), and the second call is
served from the cache keyed by the geometry's fingerprint, leaving the
engine state and filesystem untouched. -/
theorem calc_twice_cached (ad : Adapter) (st : EngineState) (fs : FS)
    (c : Coords) (d : String) (r : CalculationResult)
    (hmiss : lookupCalc st.stored_calcs c = none)
    (hnew : ad.calc_new c d = .ok r) :
    (engineCalc ad st fs c d false).res = .ok r ∧
    (engineCalc ad st fs c d false).ncalls = 1 ∧
    (engineCalc ad (engineCalc ad st fs c d false).st
        (engineCalc ad st fs c d false).fs c d false).res = .ok r ∧
    (engineCalc ad (engineCalc ad st fs c d false).st
        (engineCalc ad st fs c d false).fs c d false).ncalls = 0 ∧
    (engineCalc ad (engineCalc ad st fs c d false).st
        (engineCalc ad st fs c d false).fs c d false).st =
      (engineCalc ad st fs c d false).st := by
  have h1 : engineCalc ad st fs c d false =
      { res := .ok r, st := ⟨storeCalc st.stored_calcs c r⟩,
        fs := fs.ensureDir d, ncalls := 1 } := by
    simp [engineCalc, hmiss, hnew]
  have h2 : engineCalc ad (⟨storeCalc st.stored_calcs c r⟩ : EngineState)
      (fs.ensureDir d) c d false =
      { res := .ok r, st := ⟨storeCalc st.stored_calcs c r⟩,
        fs := fs.ensureDir d, ncalls := 0 } := by
    simp [engineCalc, lookup_storeCalc_self]
  rw [h1]
  simp [h2]

/-- Witness for `calc_twice_cached` at a concrete stub adapter and geometry. -/
theorem calc_twice_cached_witness :
    (engineCalc (stubOk ⟨1, [2], none⟩) ⟨[]⟩ ⟨[]⟩ [0] "run" false).res =
      .ok ⟨1, [2], none⟩ ∧
    (engineCalc (stubOk ⟨1, [2], none⟩) ⟨[]⟩ ⟨[]⟩ [0] "run" false).ncalls = 1 ∧
    (engineCalc (stubOk ⟨1, [2], none⟩)
        (engineCalc (stubOk ⟨1, [2], none⟩) ⟨[]⟩ ⟨[]⟩ [0] "run" false).st
        (engineCalc (stubOk ⟨1, [2], none⟩) ⟨[]⟩ ⟨[]⟩ [0] "run" false).fs
        [0] "run" false).res = .ok ⟨1, [2], none⟩ ∧
    (engineCalc (stubOk ⟨1, [2], none⟩)
        (engineCalc (stubOk ⟨1, [2], none⟩) ⟨[]⟩ ⟨[]⟩ [0] "run" false).st
        (engineCalc (stubOk ⟨1, [2], none⟩) ⟨[]⟩ ⟨[]⟩ [0] "run" false).fs
        [0] "run" false).ncalls = 0 ∧
    (engineCalc (stubOk ⟨1, [2], none⟩)
        (engineCalc (stubOk ⟨1, [2], none⟩) ⟨[]⟩ ⟨[]⟩ [0] "run" false).st
        (engineCalc (stubOk ⟨1, [2], none⟩) ⟨[]⟩ ⟨[]⟩ [0] "run" false).fs
        [0] "run" false).st =
      (engineCalc (stubOk ⟨1, [2], none⟩) ⟨[]⟩ ⟨[]⟩ [0] "run" false).st :=
  calc_twice_cached (stubOk ⟨1, [2], none⟩) ⟨[]⟩ ⟨[]⟩ [0] "run" ⟨1, [2], none⟩
    rfl rfl

/-- C3: if the geometry is uncached, `readfiles` is set, the directory
exists and the adapter has `read_result`, a failing restart-read is
swallowed: the call behaves as a cache miss, running the adapter's
`calc_new` (exactly one invocation) and returning its outcome; the read
failure itself is never propagated. -/
theorem calc_read_failure_swallowed (ad : Adapter) (st : EngineState)
    (fs : FS) (c : Coords) (d : String) (e : EngErr)
    (hmiss : lookupCalc st.stored_calcs c = none)
    (hdir : fs.dirExists d = true)
    (hcap : ad.has_read_result = true)
    (hread : ad.read_result d = .error e) :
    (engineCalc ad st fs c d true).res = ad.calc_new c d ∧
    (engineCalc ad st fs c d true).ncalls = 1 := by
  rcases hnew : ad.calc_new c d with e2 | r <;>
    simp [engineCalc, hmiss, hdir, hcap, hread, hnew]

/-- Witness for `calc_read_failure_swallowed`: a stub adapter whose
restart-read always fails still produces the fresh-run result. -/
theorem calc_read_failure_swallowed_witness :
    (engineCalc (stubReadFail ⟨3, [4], none⟩) ⟨[]⟩ ⟨["run"]⟩ [0] "run" true).res =
      (stubReadFail ⟨3, [4], none⟩).calc_new [0] "run" ∧
    (engineCalc (stubReadFail ⟨3, [4], none⟩) ⟨[]⟩ ⟨["run"]⟩ [0] "run" true).ncalls = 1 :=
  calc_read_failure_swallowed (stubReadFail ⟨3, [4], none⟩) ⟨[]⟩ ⟨["run"]⟩
    [0] "run" .runtimeError rfl rfl rfl rfl

/-- C7: submitting an uncached geometry through `calc_wq` on an adapter
without Work Queue support fails immediately with the capability error
(`NotImplementedError` from the base-class `calc_wq_new`), and neither a
working directory nor any job state is created. -/
theorem calc_wq_capability_error (ad : Adapter) (st : EngineState) (fs : FS)
    (wq : WQ) (c : Coords) (d : String)
    (hcap : ad.supports_wq = false)
    (hmiss : lookupCalc st.stored_calcs c = none) :
    calc_wq ad st fs wq c d false = ⟨some .notImplementedError, fs, wq⟩ := by
  simp [calc_wq, calc_wq_new, hmiss, hcap]

/-- Witness for `calc_wq_capability_error` at a concrete adapter. -/
theorem calc_wq_capability_error_witness :
    calc_wq (stubOk ⟨1, [2], none⟩) ⟨[]⟩ ⟨[]⟩ ⟨[]⟩ [0] "run" false =
      ⟨some .notImplementedError, ⟨[]⟩, ⟨[]⟩⟩ :=
  calc_wq_capability_error (stubOk ⟨1, [2], none⟩) ⟨[]⟩ ⟨[]⟩ ⟨[]⟩ [0] "run"
    rfl rfl

/-- C10: `QCEngineAPI.calc` performs no memoization and no workdir
management: each call is exactly a direct `calc_new` invocation (one fresh
external computation per call, also on a repeated call), leaving
`stored_calcs` and the filesystem unchanged and creating no cache entry. -/
theorem qce_calc_no_memoization (ad : Adapter) (st : EngineState) (fs : FS)
    (c : Coords) (d : String) :
    (qceCalc ad st fs c d).res = ad.calc_new c d ∧
    (qceCalc ad st fs c d).st = st ∧
    (qceCalc ad st fs c d).fs = fs ∧
    (qceCalc ad st fs c d).ncalls = 1 ∧
    (qceCalc ad (qceCalc ad st fs c d).st (qceCalc ad st fs c d).fs c d).ncalls = 1 := by
  simp [qceCalc]

/-- C2 counterexample: with a Work-Queue-capable stub adapter and an
uncached geometry, submitting twice via `calc_wq` enqueues two jobs for the
same fingerprint: the second submission of the already-outstanding
fingerprint is not a no-op, refuting the claim that in-flight fingerprints
are tracked separately from the result cache. -/
theorem calc_wq_resubmit_counterexample :
    (calc_wq (stubWq ⟨1, [2], none⟩) ⟨[]⟩ ⟨[]⟩ ⟨[]⟩ [0] "run" false).wq.jobs =
      [⟨[0], "run"⟩] ∧
    (calc_wq (stubWq ⟨1, [2], none⟩) ⟨[]⟩
        (calc_wq (stubWq ⟨1, [2], none⟩) ⟨[]⟩ ⟨[]⟩ ⟨[]⟩ [0] "run" false).fs
        (calc_wq (stubWq ⟨1, [2], none⟩) ⟨[]⟩ ⟨[]⟩ ⟨[]⟩ [0] "run" false).wq
        [0] "run" false).wq.jobs = [⟨[0], "run"⟩, ⟨[0], "run"⟩] := by
  constructor <;> rfl

/-- C2 (amended): `calc_wq` consults only the result cache `stored_calcs`
and tracks no separate in-flight set, so every submission of a geometry
whose fingerprint is not yet cached (with `readfiles` off) enqueues another
Job — a re-submission of an outstanding fingerprint enqueues a duplicate;
submission becomes a no-op only once the result has been collected into the
cache. -/
theorem calc_wq_resubmit_enqueues (ad : Adapter) (st : EngineState) (fs : FS)
    (wq : WQ) (c : Coords) (d : String)
    (hwq : ad.supports_wq = true)
    (hmiss : lookupCalc st.stored_calcs c = none) :
    (calc_wq ad st fs wq c d false).wq.jobs = wq.jobs ++ [⟨c, d⟩] ∧
    (calc_wq ad st fs wq c d false).err = none := by
  simp [calc_wq, calc_wq_new, hmiss, hwq]

/-- Witness for `calc_wq_resubmit_enqueues`: re-submitting a fingerprint
whose job is already queued appends a duplicate job. -/
theorem calc_wq_resubmit_enqueues_witness :
    (calc_wq (stubWq ⟨1, [2], none⟩) ⟨[]⟩ ⟨[]⟩ ⟨[⟨[0], "run"⟩]⟩
        [0] "run" false).wq.jobs = [⟨[0], "run"⟩] ++ [⟨[0], "run"⟩] ∧
    (calc_wq (stubWq ⟨1, [2], none⟩) ⟨[]⟩ ⟨[]⟩ ⟨[⟨[0], "run"⟩]⟩
        [0] "run" false).err = none :=
  calc_wq_resubmit_enqueues (stubWq ⟨1, [2], none⟩) ⟨[]⟩ ⟨[]⟩
    ⟨[⟨[0], "run"⟩]⟩ [0] "run" rfl rfl

/-- C6 counterexample: collecting an uncached geometry whose workdir is
absent fails with the plain `RuntimeError` raised by `read_wq` itself, and
`RuntimeError` is not in the `EngineError` family (it is not caught by an
`except EngineError:` clause) — refuting the claim that the failure on
absent outputs is an `EngineError`. An adapter whose `read_result` raises a
builtin error likewise has it propagated unwrapped. -/
theorem read_wq_error_family_counterexample :
    (read_wq (stubOk ⟨1, [2], none⟩) ⟨[]⟩ ⟨[]⟩ [0] "run").res =
      .error .runtimeError ∧
    (read_wq (stubOk ⟨1, [2], none⟩) ⟨[]⟩ ⟨["run"]⟩ [0] "run").res =
      .error .runtimeError ∧
    EngErr.runtimeError.isEngineError = false := by
  refine ⟨?_, ?_, ?_⟩
  · rfl
  · rfl
  · rfl

/-- C6 (amended): `read_wq` returns the cached result with the state
unchanged when the fingerprint is cached (for any filesystem and any
adapter, so the workdir is never consulted); otherwise it fails with the
plain `RuntimeError` — not an `EngineError` — when the directory is absent,
propagates the `read_result` failure exactly as raised when the expected
outputs cannot be parsed, and on success stores the parsed result under the
fingerprint and returns it. -/
theorem read_wq_spec (ad : Adapter) (st : EngineState) (fs : FS) (c : Coords)
    (d : String) :
    (∀ r, lookupCalc st.stored_calcs c = some r →
        read_wq ad st fs c d = ⟨.ok r, st⟩) ∧
    (lookupCalc st.stored_calcs c = none → fs.dirExists d = false →
        read_wq ad st fs c d = ⟨.error .runtimeError, st⟩) ∧
    (∀ e, lookupCalc st.stored_calcs c = none → fs.dirExists d = true →
        ad.read_result d = .error e →
        read_wq ad st fs c d = ⟨.error e, st⟩) ∧
    (∀ r, lookupCalc st.stored_calcs c = none → fs.dirExists d = true →
        ad.read_result d = .ok r →
        read_wq ad st fs c d = ⟨.ok r, ⟨storeCalc st.stored_calcs c r⟩⟩) := by
  refine ⟨?_, ?_, ?_, ?_⟩
  · intro r h
    simp [read_wq, h]
  · intro h hd
    simp [read_wq, h, hd]
  · intro e h hd hr
    simp [read_wq, h, hd, hr]
  · intro r h hd hr
    simp [read_wq, h, hd, hr]

/-- Witness for `read_wq_spec`: the cached branch returns the stored result
untouched, and the missing-directory branch raises the runtime error. -/
theorem read_wq_spec_witness :
    read_wq (stubOk ⟨1, [2], none⟩) ⟨[([0], ⟨5, [6], none⟩)]⟩ ⟨[]⟩ [0] "run" =
      ⟨.ok ⟨5, [6], none⟩, ⟨[([0], ⟨5, [6], none⟩)]⟩⟩ ∧
    read_wq (stubOk ⟨1, [2], none⟩) ⟨[]⟩ ⟨[]⟩ [0] "run" =
      ⟨.error .runtimeError, ⟨[]⟩⟩ :=
  ⟨(read_wq_spec (stubOk ⟨1, [2], none⟩) ⟨[([0], ⟨5, [6], none⟩)]⟩ ⟨[]⟩
      [0] "run").1 ⟨5, [6], none⟩ rfl,
   (read_wq_spec (stubOk ⟨1, [2], none⟩) ⟨[]⟩ ⟨[]⟩ [0] "run").2.1 rfl rfl⟩

theorem engineCalc_fresh (ad : Adapter) (st : EngineState) (fs : FS)
    (c : Coords) (d : String) (r : CalculationResult)
    (hmiss : lookupCalc st.stored_calcs c = none)
    (hok : ad.calc_new c d = .ok r) :
    engineCalc ad st fs c d false =
      ⟨.ok r, ⟨storeCalc st.stored_calcs c r⟩, fs.ensureDir d, 1⟩ := by
  simp [engineCalc, hmiss, hok]

/-- C4 counterexample: evaluating a `ConicalIntersection` through its
(inherited) `calc` at an uncached geometry does create a composite-level
fingerprint-to-result entry: with stub sub-engines, the composite's own
`stored_calcs` holds the objective result afterwards, refuting the claim
that cache entries are created only inside the sub-engines. -/
theorem ci_composite_cache_counterexample :
    (ciCalc 0 1 (stubOk ⟨1, [], none⟩) (stubOk ⟨2, [], none⟩)
        ⟨[]⟩ ⟨[]⟩ ⟨[]⟩ ⟨[]⟩ [0] "run").cst.stored_calcs.map Prod.fst = [[0]] ∧
    (ciCalc 0 1 (stubOk ⟨1, [], none⟩) (stubOk ⟨2, [], none⟩)
        ⟨[]⟩ ⟨[]⟩ ⟨[]⟩ ⟨[]⟩ [0] "run").cst.stored_calcs ≠ [] := by
  constructor
  · decide
  · decide

/-- C4 (amended): `ConicalIntersection` owns two sub-engines indexed by
role {1, 2}, but it inherits the base `Engine` cache: a successful
evaluation at an uncached geometry stores a composite-level
fingerprint-to-result entry in the composite's own `stored_calcs`, in
addition to the entries the two sub-engines store for the same
fingerprint. -/
theorem ci_composite_cache_entry (sigma alpha : ℚ) (ad1 ad2 : Adapter)
    (cst st1 st2 : EngineState) (fs : FS) (c : Coords) (d : String)
    (r1 r2 : CalculationResult)
    (hmissC : lookupCalc cst.stored_calcs c = none)
    (hmiss1 : lookupCalc st1.stored_calcs c = none)
    (hmiss2 : lookupCalc st2.stored_calcs c = none)
    (h1 : ad1.calc_new c (d ++ "/state_1") = .ok r1)
    (h2 : ad2.calc_new c (d ++ "/state_2") = .ok r2) :
    lookupCalc (ciCalc sigma alpha ad1 ad2 cst st1 st2 fs c d).cst.stored_calcs c =
      some (ciObjective sigma alpha r1.energy r2.energy r1.gradient r2.gradient) ∧
    lookupCalc (ciCalc sigma alpha ad1 ad2 cst st1 st2 fs c d).st1.stored_calcs c =
      some r1 ∧
    lookupCalc (ciCalc sigma alpha ad1 ad2 cst st1 st2 fs c d).st2.stored_calcs c =
      some r2 := by
  have e1 : ∀ fsx : FS, engineCalc ad1 st1 fsx c (d ++ "/state_1") false =
      ⟨.ok r1, ⟨storeCalc st1.stored_calcs c r1⟩,
        fsx.ensureDir (d ++ "/state_1"), 1⟩ :=
    fun fsx => engineCalc_fresh ad1 st1 fsx c (d ++ "/state_1") r1 hmiss1 h1
  have e2 : ∀ fsx : FS, engineCalc ad2 st2 fsx c (d ++ "/state_2") false =
      ⟨.ok r2, ⟨storeCalc st2.stored_calcs c r2⟩,
        fsx.ensureDir (d ++ "/state_2"), 1⟩ :=
    fun fsx => engineCalc_fresh ad2 st2 fsx c (d ++ "/state_2") r2 hmiss2 h2
  simp [ciCalc, ciCalcNew, hmissC, e1, e2, lookup_storeCalc_self]

/-- Witness for `ci_composite_cache_entry` at concrete stub sub-engines. -/
theorem ci_composite_cache_entry_witness :
    lookupCalc (ciCalc 0 1 (stubOk ⟨1, [], none⟩) (stubOk ⟨2, [], none⟩)
        ⟨[]⟩ ⟨[]⟩ ⟨[]⟩ ⟨[]⟩ [0] "run").cst.stored_calcs [0] =
      some (ciObjective 0 1 1 2 [] []) ∧
    lookupCalc (ciCalc 0 1 (stubOk ⟨1, [], none⟩) (stubOk ⟨2, [], none⟩)
        ⟨[]⟩ ⟨[]⟩ ⟨[]⟩ ⟨[]⟩ [0] "run").st1.stored_calcs [0] =
      some ⟨1, [], none⟩ ∧
    lookupCalc (ciCalc 0 1 (stubOk ⟨1, [], none⟩) (stubOk ⟨2, [], none⟩)
        ⟨[]⟩ ⟨[]⟩ ⟨[]⟩ ⟨[]⟩ [0] "run").st2.stored_calcs [0] =
      some ⟨2, [], none⟩ :=
  ci_composite_cache_entry 0 1 (stubOk ⟨1, [], none⟩) (stubOk ⟨2, [], none⟩)
    ⟨[]⟩ ⟨[]⟩ ⟨[]⟩ ⟨[]⟩ [0] "run" ⟨1, [], none⟩ ⟨2, [], none⟩
    rfl rfl rfl rfl rfl

/-- C5: if sub-engine 1 raises an `EngineError` during
`ConicalIntersection.calc_new`, the exception is re-raised as the composite
`ConicalIntersectionEngineError`, the other state's adapter is never
invoked, and no partial objective result is returned. -/
theorem ci_subengine_error_wrapped (sigma alpha : ℚ) (ad1 ad2 : Adapter)
    (st1 st2 : EngineState) (fs : FS) (c : Coords) (d : String) (e : EngErr)
    (hmiss1 : lookupCalc st1.stored_calcs c = none)
    (herr : ad1.calc_new c (d ++ "/state_1") = .error e)
    (hfam : e.isEngineError = true) :
    (ciCalcNew sigma alpha ad1 ad2 st1 st2 fs c d).res = .error .ciError ∧
    (ciCalcNew sigma alpha ad1 ad2 st1 st2 fs c d).n2 = 0 := by
  simp [ciCalcNew, engineCalc, hmiss1, herr, hfam]

/-- Witness for `ci_subengine_error_wrapped`: a failing first sub-engine
yields the composite error and leaves sub-engine 2 uninvoked. -/
theorem ci_subengine_error_wrapped_witness :
    (ciCalcNew 0 1 (stubErr .engineError) (stubOk ⟨2, [], none⟩)
        ⟨[]⟩ ⟨[]⟩ ⟨[]⟩ [0] "run").res = .error .ciError ∧
    (ciCalcNew 0 1 (stubErr .engineError) (stubOk ⟨2, [], none⟩)
        ⟨[]⟩ ⟨[]⟩ ⟨[]⟩ [0] "run").n2 = 0 :=
  ci_subengine_error_wrapped 0 1 (stubErr .engineError) (stubOk ⟨2, [], none⟩)
    ⟨[]⟩ ⟨[]⟩ ⟨[]⟩ [0] "run" .engineError rfl rfl rfl

theorem zipWith_fst_swap (G1 G2 : List ℚ) :
    List.zipWith (fun a _ => a)
      (List.zipWith (fun a b => (1 / 2 : ℚ) * (a + b)) G2 G1)
      (List.zipWith (fun a b => a - b) G2 G1) =
    List.zipWith (fun a _ => a)
      (List.zipWith (fun a b => (1 / 2 : ℚ) * (a + b)) G1 G2)
      (List.zipWith (fun a b => a - b) G1 G2) := by
  induction G1 generalizing G2 with
  | nil => cases G2 <;> rfl
  | cons a t ih =>
      cases G2 with
      | nil => rfl
      | cons b u =>
          simp only [List.zipWith_cons_cons]
          rw [add_comm b a]
          exact congrArg _ (ih u)

theorem ciCore_tie_swap (sigma alpha E : ℚ) (G1 G2 : List ℚ) :
    ciCore sigma alpha E E G2 G1 = ciCore sigma alpha E E G1 G2 := by
  have hfac : sigma * ciGradFactor alpha (E - E) = 0 := by
    simp [ciGradFactor]
  simp only [ciCore, hfac, zero_mul, add_zero]
  rw [zipWith_fst_swap G1 G2]

/-- C8: swapping which stub sub-engine result occupies role 1 versus role 2
leaves the conical-intersection objective energy and gradient unchanged:
the higher/lower states I and J are chosen by energy comparison, not by
role index (with the penalty parameter `alpha` positive, as configured). -/
theorem ciObjective_role_swap (sigma alpha E1 E2 : ℚ) (G1 G2 : List ℚ)
    (_halpha : 0 < alpha) :
    ciObjective sigma alpha E2 E1 G2 G1 = ciObjective sigma alpha E1 E2 G1 G2 := by
  rcases lt_trichotomy E1 E2 with h | h | h
  · simp [ciObjective, h, lt_asymm h]
  · subst h
    simpa [ciObjective] using ciCore_tie_swap sigma alpha E1 G1 G2
  · simp [ciObjective, h, lt_asymm h]

/-- Witness for `ciObjective_role_swap` at concrete sub-engine results. -/
theorem ciObjective_role_swap_witness :
    (0 : ℚ) < 1 / 2 ∧
    ciObjective 1 (1 / 2) 2 1 [1] [2] = ciObjective 1 (1 / 2) 1 2 [2] [1] :=
  ⟨by norm_num, ciObjective_role_swap 1 (1 / 2) 1 2 [2] [1] (by norm_num)⟩

/-- C9: with sub-engine energies −1.000000 and −1.000500, α = 0.02 and
σ = 3.5, the objective computes `EDif = 0.000500` exactly, a penalty within
10⁻⁹ of 1.2195·10⁻⁵, and an objective energy within 10⁻⁷ of −1.0002073
(agreement to 6 significant figures). -/
theorem ci_worked_example :
    ciEDif (-1 : ℚ) (-2001 / 2000) = 1 / 2000 ∧
    |ciPenalty (1 / 50) (-1 : ℚ) (-2001 / 2000) - 12195 / 10 ^ 9| < 1 / 10 ^ 9 ∧
    |(ciObjective (7 / 2) (1 / 50) (-1 : ℚ) (-2001 / 2000) [0] [0]).energy -
        (-10002073 / 10 ^ 7)| < 1 / 10 ^ 7 := by
  refine ⟨?_, ?_, ?_⟩
  · norm_num [ciEDif]
  · norm_num [ciPenalty, ciPenaltyOf, ciEDif, abs_lt]
  · norm_num [ciObjective, ciCore, ciPenaltyOf, abs_lt]
